import Mathlib

/-!
Verification of the `validator depositdata` command of ethdo
(src/cmd/validatordepositdata.go), as a shallow embedding:
byte slices become `List Nat`, external collaborators (SHA-256, SSZ
hash-tree-root, BLS key parsing, wallet resolution, chain-configuration
fetch, unit conversion, domain computation) become explicit function
parameters, and the command's `Run` control flow becomes a pure function
that also records how often each collaborator was invoked.
-/

/-- Byte strings of the Go source (`[]byte`) are lists of naturals. -/
abbrev Bytes := List Nat

/-- Value of a single hexadecimal digit character, as `encoding/hex` accepts it. -/
def hexDigitVal (c : Char) : Option Nat :=
  if 48 ≤ c.toNat ∧ c.toNat ≤ 57 then some (c.toNat - 48)
  else if 97 ≤ c.toNat ∧ c.toNat ≤ 102 then some (c.toNat - 87)
  else if 65 ≤ c.toNat ∧ c.toNat ≤ 70 then some (c.toNat - 55)
  else none

/-- Decode a list of hex characters two at a time, as Go `hex.DecodeString`
does: odd length or a non-hex character is a failure. -/
def hexDecodeChars : List Char → Option Bytes
  | [] => some []
  | [_] => none
  | c1 :: c2 :: rest =>
    match hexDigitVal c1, hexDigitVal c2, hexDecodeChars rest with
    | some h, some l, some tail => some ((16 * h + l) :: tail)
    | _, _, _ => none

/-- Go `strings.TrimPrefix(s, "0x")`: remove a leading `0x` if present,
expressed on the string's character list. -/
def trimHexMark (s : String) : List Char :=
  if s.data.take 2 = ['0', 'x'] then s.data.drop 2 else s.data

/-- Model of `hex.DecodeString(strings.TrimPrefix(s, "0x"))` as the source
applies it to the withdrawal public key and the fork version. -/
def hexDecode (s : String) : Option Bytes :=
  hexDecodeChars (trimHexMark s)

/-- Lowercase hexadecimal digit character for a value below 16. -/
def hexDigitChar (n : Nat) : Char :=
  if n < 10 then Char.ofNat (48 + n) else Char.ofNat (87 + n)

/-- Two lowercase hex digits of one byte, as Go `%x` formats each byte. -/
def byteToHex (b : Nat) : String :=
  String.mk [hexDigitChar (b / 16 % 16), hexDigitChar (b % 16)]

/-- Hex rendering of a byte slice, as Go `%x` formats `[]byte`. -/
def bytesToHex (bs : Bytes) : String :=
  String.join (bs.map byteToHex)

/-- Hex rendering with the `0x` mark, as Go `%#x` formats `[]byte`. -/
def hex0x (bs : Bytes) : String := "0x" ++ bytesToHex bs

/-- Line 88 of the source: `withdrawalCredentials[0] = byte(0)`, the
hard-coded BLS_WITHDRAWAL_PREFIX overwrite. -/
def setFirstByteZero (bs : Bytes) : Bytes := bs.set 0 0

/-- Credential derivation of lines 76-88: SHA-256 of the marshalled 48-byte
withdrawal public key, with byte 0 then overwritten by zero. The hash is an
external collaborator (`util.SHA256`), passed in as a function. -/
def deriveWithdrawalCredentials (sha256 : Bytes → Bytes) (pubKey : Bytes) : Bytes :=
  setFirstByteZero (sha256 pubKey)

/-- Raw deposit transaction data, built exactly as lines 163-181 of the
source build it: the 4-byte selector, three literal 32-byte pointer words,
the deposit data root, then each dynamic argument preceded by its literal
32-byte length word, the public key followed by 16 literal padding bytes. -/
def rawTxData (validatorPubKey withdrawalCredentials signature depositDataRoot : Bytes) : Bytes :=
  [0x22, 0x89, 0x51, 0x18]
    ++ [0x00, 0x00, 0x00, 0x00, 0x00, 0x00, 0x00, 0x00, 0x00, 0x00, 0x00, 0x00, 0x00, 0x00, 0x00, 0x00, 0x00, 0x00, 0x00, 0x00, 0x00, 0x00, 0x00, 0x00, 0x00, 0x00, 0x00, 0x00, 0x00, 0x00, 0x00, 0x80]
    ++ [0x00, 0x00, 0x00, 0x00, 0x00, 0x00, 0x00, 0x00, 0x00, 0x00, 0x00, 0x00, 0x00, 0x00, 0x00, 0x00, 0x00, 0x00, 0x00, 0x00, 0x00, 0x00, 0x00, 0x00, 0x00, 0x00, 0x00, 0x00, 0x00, 0x00, 0x00, 0xe0]
    ++ [0x00, 0x00, 0x00, 0x00, 0x00, 0x00, 0x00, 0x00, 0x00, 0x00, 0x00, 0x00, 0x00, 0x00, 0x00, 0x00, 0x00, 0x00, 0x00, 0x00, 0x00, 0x00, 0x00, 0x00, 0x00, 0x00, 0x00, 0x00, 0x00, 0x00, 0x01, 0x20]
    ++ depositDataRoot
    ++ [0x00, 0x00, 0x00, 0x00, 0x00, 0x00, 0x00, 0x00, 0x00, 0x00, 0x00, 0x00, 0x00, 0x00, 0x00, 0x00, 0x00, 0x00, 0x00, 0x00, 0x00, 0x00, 0x00, 0x00, 0x00, 0x00, 0x00, 0x00, 0x00, 0x00, 0x00, 0x30]
    ++ validatorPubKey
    ++ [0x00, 0x00, 0x00, 0x00, 0x00, 0x00, 0x00, 0x00, 0x00, 0x00, 0x00, 0x00, 0x00, 0x00, 0x00, 0x00]
    ++ [0x00, 0x00, 0x00, 0x00, 0x00, 0x00, 0x00, 0x00, 0x00, 0x00, 0x00, 0x00, 0x00, 0x00, 0x00, 0x00, 0x00, 0x00, 0x00, 0x00, 0x00, 0x00, 0x00, 0x00, 0x00, 0x00, 0x00, 0x00, 0x00, 0x00, 0x00, 0x20]
    ++ withdrawalCredentials
    ++ [0x00, 0x00, 0x00, 0x00, 0x00, 0x00, 0x00, 0x00, 0x00, 0x00, 0x00, 0x00, 0x00, 0x00, 0x00, 0x00, 0x00, 0x00, 0x00, 0x00, 0x00, 0x00, 0x00, 0x00, 0x00, 0x00, 0x00, 0x00, 0x00, 0x00, 0x00, 0x60]
    ++ signature

/-- A 32-byte big-endian word of a natural number, as the specification
describes the pointer and length words of the ABI encoding. -/
def beWord (v : Nat) : Bytes :=
  (List.range 32).map (fun i => v / 256 ^ (31 - i) % 256)

/-- Right-padding of a byte string with zeroes to a 32-byte boundary, as the
specification describes each dynamic argument tail. -/
def padRight32 (bs : Bytes) : Bytes :=
  bs ++ List.replicate ((32 - bs.length % 32) % 32) 0

/-- Raw-mode layout as the specification words it: selector, three 32-byte
big-endian pointer words with values 0x80, 0xe0 and 0x120, the root, then
for each dynamic argument a 32-byte length word followed by the value
right-padded to a 32-byte boundary. -/
def rawLayoutSpec (pk creds sig root : Bytes) : Bytes :=
  [0x22, 0x89, 0x51, 0x18]
    ++ beWord 0x80 ++ beWord 0xe0 ++ beWord 0x120
    ++ root
    ++ beWord pk.length ++ padRight32 pk
    ++ beWord creds.length ++ padRight32 creds
    ++ beWord sig.length ++ padRight32 sig

/-- Fixed-offset extraction of the validator public key from the raw
transaction bytes: the first dynamic tail's value starts at byte
4 + 0x80 + 32 = 164 and is 48 bytes long. -/
def rawParsedPubKey (tx : Bytes) : Bytes := (tx.drop 164).take 48

/-- Fixed-offset extraction of the withdrawal credentials: the second
dynamic tail's value starts at byte 4 + 0xe0 + 32 = 260 and is 32 bytes. -/
def rawParsedCredentials (tx : Bytes) : Bytes := (tx.drop 260).take 32

/-- Fixed-offset extraction of the signature: the third dynamic tail's
value starts at byte 4 + 0x120 + 32 = 324 and is 96 bytes long. -/
def rawParsedSignature (tx : Bytes) : Bytes := (tx.drop 324).take 96

/-- Fixed-offset extraction of the deposit data root: the fixed argument
slot after the three pointer words, bytes 100 to 131. -/
def rawParsedRoot (tx : Bytes) : Bytes := (tx.drop 100).take 32

/-- Error taxonomy of the specification. The helper routines `errCheck` and
`assert` are not part of src/, so each failure site is mapped to the
category the specification assigns it; the carried string is the message
the source passes to the helper. -/
inductive RunError where
  | invalidInput : String → RunError
  | configUnavailable : String → RunError
  | signingError : String → RunError
deriving Repr, DecidableEq

/-- A resolved validator account as the external wallet collaborator
provides it: a name, the result of `bestPublicKey` (none when the account
provides no public key), and its `signStruct` capability, taking the
32-byte domain to a 96-byte signature (none when signing fails). -/
structure Account where
  name : String
  pubKey : Option Bytes
  sign : Bytes → Option Bytes

/-- The external collaborators the command consumes, as black-box
functions: `util.SHA256`, `ssz.HashTreeRoot` over the signed and the
unsigned structure, `string2eth.StringToGWei`, BLS public key parsing
followed by canonical re-marshalling, the withdrawal account's resolved
public key, `grpc.FetchChainConfig` (none models connection or fetch
failure), and `e2types.Domain` applied to the deposit domain constant and
the zero genesis validators root. -/
structure Collab where
  sha256 : Bytes → Bytes
  htrSigned : Bytes → Bytes → Nat → Bytes → Bytes
  htrUnsigned : Bytes → Bytes → Nat → Bytes
  parseValue : String → Option Nat
  blsPubKeyCanonical : Bytes → Option Bytes
  withdrawalAccountKey : Option Bytes
  fetchConfig : Option (List (String × Bytes))
  domain : Bytes → Bytes

/-- The command's flag values (the package-level variables of the source). -/
structure Args where
  validatorAccount : String
  withdrawalAccount : String
  withdrawalPubKey : String
  depositValue : String
  raw : Bool
  forkVersion : String
  launchpad : Bool
  quiet : Bool

/-- A JSON value as the outputs of this command use them: a string or a
decimal number. -/
inductive JVal where
  | str : String → JVal
  | num : Nat → JVal

/-- Rendering of a JSON value: strings quoted, numbers in decimal. -/
def renderJVal : JVal → String
  | .str s => "\"" ++ s ++ "\""
  | .num n => toString n

/-- Rendering of a JSON object from an ordered key-value list. -/
def renderObj (kvs : List (String × JVal)) : String :=
  "\x7b" ++ String.intercalate "," (kvs.map (fun kv => "\"" ++ kv.1 ++ "\":" ++ renderJVal kv.2)) ++ "\x7d"

/-- Default-mode per-validator output of line 197 of the source, with the
format string's braces, keys and separators written out literally. -/
def defaultOutput (wallet acctName : String) (pk creds sig : Bytes) (val : Nat) (root : Bytes) : String :=
  "\x7b\"name\":\"Deposit for " ++ wallet ++ "/" ++ acctName
    ++ "\",\"account\":\"" ++ wallet ++ "/" ++ acctName
    ++ "\",\"pubkey\":\"" ++ hex0x pk
    ++ "\",\"withdrawal_credentials\":\"" ++ hex0x creds
    ++ "\",\"signature\":\"" ++ hex0x sig
    ++ "\",\"value\":" ++ toString val
    ++ ",\"deposit_data_root\":\"" ++ hex0x root
    ++ "\",\"version\":2\x7d"

/-- Launchpad-mode per-validator output of line 195 of the source: one
single-element JSON array, byte fields hex-encoded without a 0x mark. -/
def launchpadOutput (pk creds : Bytes) (val : Nat) (sig msgRoot root fv : Bytes) : String :=
  "[\x7b\"pubkey\":\"" ++ bytesToHex pk
    ++ "\",\"withdrawal_credentials\":\"" ++ bytesToHex creds
    ++ "\",\"amount\":" ++ toString val
    ++ ",\"signature\":\"" ++ bytesToHex sig
    ++ "\",\"deposit_message_root\":\"" ++ bytesToHex msgRoot
    ++ "\",\"deposit_data_root\":\"" ++ bytesToHex root
    ++ "\",\"fork_version\":\"" ++ bytesToHex fv
    ++ "\"\x7d]"

/-- Linear lookup in the fetched configuration map, as the Go map access
`config["GenesisForkVersion"]` behaves for the keys we model. -/
def lookupConfig : List (String × Bytes) → String → Option Bytes
  | [], _ => none
  | (k, v) :: rest, key => if k = key then some v else lookupConfig rest key

/-- Fork-version resolution of lines 113-129, performed inside the
per-validator loop: an explicitly supplied version is hex-decoded and must
be exactly 4 bytes; otherwise the chain configuration is fetched and must
contain a genesis fork version, either failure being fatal. -/
def resolveForkVersion (collab : Collab) (args : Args) : Except RunError Bytes :=
  if args.forkVersion ≠ "" then
    match hexDecode args.forkVersion with
    | none => .error (.invalidInput "Failed to decode fork version")
    | some fv =>
      if fv.length = 4 then .ok fv
      else .error (.invalidInput "Fork version must be exactly four bytes")
  else
    match collab.fetchConfig with
    | none => .error (.configUnavailable "Could not connect to beacon node; supply a connection with --connection or provide a fork version with --forkversion to generate a deposit")
    | some cfg =>
      match lookupConfig cfg "GenesisForkVersion" with
      | none => .error (.configUnavailable "Failed to obtain genesis fork version")
      | some fv => .ok fv

/-- Trace of one iteration of the per-validator loop: its outcome, how many
chain-configuration fetches it attempted, how many signature requests it
made, and every domain value it signed under. -/
structure StepTrace where
  out : Except RunError String
  fetches : Nat
  signs : Nat
  domains : List Bytes

/-- One iteration of the loop of lines 99-199: obtain the validator public
key, resolve the fork version (fetching the chain configuration when no
explicit version was supplied), compute the domain, request the signature,
compute the deposit data root and render the selected output format. -/
def processAccount (collab : Collab) (args : Args) (wallet : String)
    (creds : Bytes) (val : Nat) (acct : Account) : StepTrace :=
  match acct.pubKey with
  | none => ⟨.error (.signingError "Validator account does not provide a public key"), 0, 0, []⟩
  | some pk =>
    let fetches := if args.forkVersion = "" then 1 else 0
    match resolveForkVersion collab args with
    | .error e => ⟨.error e, fetches, 0, []⟩
    | .ok fv =>
      let dom := collab.domain fv
      match acct.sign dom with
      | none => ⟨.error (.signingError "Failed to generate deposit data signature"), fetches, 1, [dom]⟩
      | some sig =>
        let root := collab.htrSigned pk creds val sig
        let out :=
          if args.raw then hex0x (rawTxData pk creds sig root)
          else if args.launchpad then
            launchpadOutput pk creds val sig (collab.htrUnsigned pk creds val) root fv
          else defaultOutput wallet acct.name pk creds sig val root
        ⟨.ok out, fetches, 1, [dom]⟩

/-- Accumulated trace of the whole run: the outcome (the list of
per-validator output strings on success), and the collaborator counters. -/
structure BatchResult where
  result : Except RunError (List String)
  fetches : Nat
  signs : Nat
  domains : List Bytes

/-- The per-validator loop: strictly sequential and order-preserving, and a
failure for one validator aborts the whole batch at once (the `errCheck`
helpers exit the process), so later validators contribute nothing. -/
def processAccounts (collab : Collab) (args : Args) (wallet : String)
    (creds : Bytes) (val : Nat) : List Account → BatchResult
  | [] => ⟨.ok [], 0, 0, []⟩
  | acct :: rest =>
    let t := processAccount collab args wallet creds val acct
    match t.out with
    | .error e => ⟨.error e, t.fetches, t.signs, t.domains⟩
    | .ok out =>
      let r := processAccounts collab args wallet creds val rest
      ⟨match r.result with
        | .error e => .error e
        | .ok outs => .ok (out :: outs),
       t.fetches + r.fetches, t.signs + r.signs, t.domains ++ r.domains⟩

/-- Withdrawal-credential stage of lines 68-89: either hash the withdrawal
account's public key, or hex-decode the supplied raw key, require exactly
48 bytes, parse it as a BLS public key, and hash its canonical marshalled
form; in every case byte 0 is then overwritten by zero. -/
def withdrawalCreds (collab : Collab) (args : Args) : Except RunError Bytes :=
  if args.withdrawalAccount = "" ∧ args.withdrawalPubKey = "" then
    .error (.invalidInput "--withdrawalaccount or --withdrawalpubkey is required")
  else if args.withdrawalAccount ≠ "" then
    match collab.withdrawalAccountKey with
    | none => .error (.invalidInput "Failed to obtain withdrawal account")
    | some wk => .ok (deriveWithdrawalCredentials collab.sha256 wk)
  else
    match hexDecode args.withdrawalPubKey with
    | none => .error (.invalidInput "Invalid withdrawal public key")
    | some bs =>
      if bs.length = 48 then
        match collab.blsPubKeyCanonical bs with
        | none => .error (.invalidInput "Value supplied with --withdrawalpubkey is not a valid public key")
        | some canon => .ok (deriveWithdrawalCredentials collab.sha256 canon)
      else .error (.invalidInput "Public key should be 48 bytes")

/-- Deposit-value stage of lines 91-95: the flag is required, converted to
Gwei by the external unit converter, and must be at least 1000000000 Gwei
(MIN_DEPOSIT_AMOUNT, the equivalent of 1 Ether). -/
def depositValueResult (collab : Collab) (args : Args) : Except RunError Nat :=
  if args.depositValue = "" then
    .error (.invalidInput "--depositvalue is required")
  else
    match collab.parseValue args.depositValue with
    | none => .error (.invalidInput "Invalid value")
    | some val =>
      if val ≥ 1000000000 then .ok val
      else .error (.invalidInput "deposit value must be at least 1 Ether")

/-- The whole `Run` function of lines 52-199 up to printing: validate the
flags, resolve the validator accounts, check every account provides a
public key, derive the withdrawal credentials once, parse and bound the
deposit value once, then run the per-validator loop. `resolved` is the
result of the external `walletAndAccountsFromPath` collaborator. -/
def runCore (collab : Collab) (args : Args)
    (resolved : Option (String × List Account)) : BatchResult :=
  if args.validatorAccount = "" then
    ⟨.error (.invalidInput "--validatoraccount is required"), 0, 0, []⟩
  else
    match resolved with
    | none => ⟨.error (.invalidInput "Failed to obtain validator accounts"), 0, 0, []⟩
    | some (wallet, accounts) =>
      if accounts.length > 0 then
        if accounts.all (fun a => a.pubKey.isSome) then
          match withdrawalCreds collab args with
          | .error e => ⟨.error e, 0, 0, []⟩
          | .ok creds =>
            match depositValueResult collab args with
            | .error e => ⟨.error e, 0, 0, []⟩
            | .ok val => processAccounts collab args wallet creds val accounts
        else ⟨.error (.signingError "Validator account does not provide a public key"), 0, 0, []⟩
      else ⟨.error (.invalidInput "Failed to obtain validator account"), 0, 0, []⟩

/-- Message carried by an error, as the source passes it to its helper. -/
def errorMessage : RunError → String
  | .invalidInput m => m
  | .configUnavailable m => m
  | .signingError m => m

/-- Observable process outcome: exit status and the two output streams. -/
structure ProcOutcome where
  exitCode : Nat
  stdout : String
  stderr : String

/-- Modelled from the spec: the helper routines `errCheck`, `assert` and
`outputIf` and the `_exitFailure` constant are not under src/. Per the
specification, an error writes a descriptive message to an error stream
(suppressed in quiet mode) and exits nonzero with nothing on standard
output; on success quiet mode exits 0 printing nothing, a single output is
printed unwrapped, and several outputs are printed comma-joined inside one
pair of square brackets (lines 201-211 of the source). -/
def renderRun (args : Args) (b : BatchResult) : ProcOutcome :=
  match b.result with
  | .error e => ⟨1, "", if args.quiet then "" else errorMessage e ++ "\n"⟩
  | .ok outs =>
    if args.quiet then ⟨0, "", ""⟩
    else if outs.length = 1 then ⟨0, outs.headD "" ++ "\n", ""⟩
    else ⟨0, "[" ++ String.intercalate "," outs ++ "]" ++ "\n", ""⟩

/-- Decision of success of a run outcome, used by concrete evaluations. -/
def exceptIsOk : Except RunError (List String) → Bool
  | .ok _ => true
  | .error _ => false

/-- The output list of a successful run, the empty list on failure. -/
def okOutputs (b : BatchResult) : List String :=
  match b.result with
  | .ok outs => outs
  | .error _ => []

/-- Concrete collaborator fixture used for evaluating the model on closed
inputs: a constant hash whose first byte is 0xab, constant roots, a unit
converter knowing a few literal amounts, a BLS parser accepting any
48-byte value as canonical, and a configuration holding a genesis fork
version. -/
def collabW : Collab :=
  { sha256 := fun _ => 171 :: List.replicate 31 5,
    htrSigned := fun _ _ _ _ => List.replicate 32 9,
    htrUnsigned := fun _ _ _ => List.replicate 32 8,
    parseValue := fun s =>
      if s = "32 Ether" then some 32000000000
      else if s = "1 Ether" then some 1000000000
      else if s = "1 Gwei" then some 1 else none,
    blsPubKeyCanonical := fun bs => if bs.length = 48 then some bs else none,
    withdrawalAccountKey := some (List.replicate 48 7),
    fetchConfig := some [("GenesisForkVersion", [0, 0, 0, 1])],
    domain := fun fv => fv ++ List.replicate 28 0 }

/-- Concrete account fixture: a named account with a 48-byte public key
and a signer returning a constant 96-byte signature. -/
def acctW (n : String) : Account :=
  { name := n, pubKey := some (List.replicate 48 6), sign := fun _ => some (List.replicate 96 4) }

/-- Concrete flag fixture: default output mode, a raw 48-byte withdrawal
public key, no explicit fork version, quiet off. -/
def argsW : Args :=
  { validatorAccount := "wallet/validator", withdrawalAccount := "",
    withdrawalPubKey := "0x" ++ bytesToHex (List.replicate 48 7),
    depositValue := "32 Ether", raw := false, forkVersion := "", launchpad := false, quiet := false }

set_option maxRecDepth 8000

/-- C1: for every signed deposit with a 48-byte public key, 32-byte
withdrawal credentials, 96-byte signature and 32-byte deposit data root,
the raw-mode output bytes are exactly the selector 0x22895118, three
32-byte big-endian pointer words 0x80, 0xe0 and 0x120, the root, then each
dynamic argument as a 32-byte length word followed by the value
right-padded to a 32-byte boundary, 420 bytes in total. -/
theorem raw_mode_exact (pk creds sig root : Bytes)
    (hpk : pk.length = 48) (hc : creds.length = 32) (hs : sig.length = 96) (hr : root.length = 32) :
    rawTxData pk creds sig root = rawLayoutSpec pk creds sig root ∧
    (rawTxData pk creds sig root).length = 420 := by
  constructor
  · have e80 : beWord 0x80 = [0x00, 0x00, 0x00, 0x00, 0x00, 0x00, 0x00, 0x00, 0x00, 0x00, 0x00, 0x00, 0x00, 0x00, 0x00, 0x00, 0x00, 0x00, 0x00, 0x00, 0x00, 0x00, 0x00, 0x00, 0x00, 0x00, 0x00, 0x00, 0x00, 0x00, 0x00, 0x80] := by decide
    have ee0 : beWord 0xe0 = [0x00, 0x00, 0x00, 0x00, 0x00, 0x00, 0x00, 0x00, 0x00, 0x00, 0x00, 0x00, 0x00, 0x00, 0x00, 0x00, 0x00, 0x00, 0x00, 0x00, 0x00, 0x00, 0x00, 0x00, 0x00, 0x00, 0x00, 0x00, 0x00, 0x00, 0x00, 0xe0] := by decide
    have e120 : beWord 0x120 = [0x00, 0x00, 0x00, 0x00, 0x00, 0x00, 0x00, 0x00, 0x00, 0x00, 0x00, 0x00, 0x00, 0x00, 0x00, 0x00, 0x00, 0x00, 0x00, 0x00, 0x00, 0x00, 0x00, 0x00, 0x00, 0x00, 0x00, 0x00, 0x00, 0x00, 0x01, 0x20] := by decide
    have e48 : beWord 48 = [0x00, 0x00, 0x00, 0x00, 0x00, 0x00, 0x00, 0x00, 0x00, 0x00, 0x00, 0x00, 0x00, 0x00, 0x00, 0x00, 0x00, 0x00, 0x00, 0x00, 0x00, 0x00, 0x00, 0x00, 0x00, 0x00, 0x00, 0x00, 0x00, 0x00, 0x00, 0x30] := by decide
    have e32 : beWord 32 = [0x00, 0x00, 0x00, 0x00, 0x00, 0x00, 0x00, 0x00, 0x00, 0x00, 0x00, 0x00, 0x00, 0x00, 0x00, 0x00, 0x00, 0x00, 0x00, 0x00, 0x00, 0x00, 0x00, 0x00, 0x00, 0x00, 0x00, 0x00, 0x00, 0x00, 0x00, 0x20] := by decide
    have e96 : beWord 96 = [0x00, 0x00, 0x00, 0x00, 0x00, 0x00, 0x00, 0x00, 0x00, 0x00, 0x00, 0x00, 0x00, 0x00, 0x00, 0x00, 0x00, 0x00, 0x00, 0x00, 0x00, 0x00, 0x00, 0x00, 0x00, 0x00, 0x00, 0x00, 0x00, 0x00, 0x00, 0x60] := by decide
    rw [rawLayoutSpec, hpk, hc, hs, e80, ee0, e120, e48, e32, e96]
    simp [rawTxData, padRight32, hpk, hc, hs, List.replicate]
  · simp [rawTxData, hpk, hc, hs, hr]

/-- Witness for C1 at concrete 48/32/96/32-byte inputs. -/
theorem raw_mode_exact_witness :
    rawTxData (List.replicate 48 1) (List.replicate 32 2) (List.replicate 96 3) (List.replicate 32 4) =
      rawLayoutSpec (List.replicate 48 1) (List.replicate 32 2) (List.replicate 96 3) (List.replicate 32 4) ∧
    (rawTxData (List.replicate 48 1) (List.replicate 32 2) (List.replicate 96 3) (List.replicate 32 4)).length = 420 :=
  raw_mode_exact _ _ _ _ (by decide) (by decide) (by decide) (by decide)

/-- C4: parsing the raw-mode encoding at its fixed offsets (public key at
byte 164, withdrawal credentials at byte 260, signature at byte 324, root
at byte 100) reconstructs exactly the original public key, credentials,
signature and deposit data root. -/
theorem raw_roundtrip (pk creds sig root : Bytes)
    (hpk : pk.length = 48) (hc : creds.length = 32) (hs : sig.length = 96) (hr : root.length = 32) :
    rawParsedPubKey (rawTxData pk creds sig root) = pk ∧
    rawParsedCredentials (rawTxData pk creds sig root) = creds ∧
    rawParsedSignature (rawTxData pk creds sig root) = sig ∧
    rawParsedRoot (rawTxData pk creds sig root) = root := by
  have s100 : (rawTxData pk creds sig root).drop 100 = root ++ ([0x00, 0x00, 0x00, 0x00, 0x00, 0x00, 0x00, 0x00, 0x00, 0x00, 0x00, 0x00, 0x00, 0x00, 0x00, 0x00, 0x00, 0x00, 0x00, 0x00, 0x00, 0x00, 0x00, 0x00, 0x00, 0x00, 0x00, 0x00, 0x00, 0x00, 0x00, 0x30] ++ (pk ++ ([0x00, 0x00, 0x00, 0x00, 0x00, 0x00, 0x00, 0x00, 0x00, 0x00, 0x00, 0x00, 0x00, 0x00, 0x00, 0x00] ++ ([0x00, 0x00, 0x00, 0x00, 0x00, 0x00, 0x00, 0x00, 0x00, 0x00, 0x00, 0x00, 0x00, 0x00, 0x00, 0x00, 0x00, 0x00, 0x00, 0x00, 0x00, 0x00, 0x00, 0x00, 0x00, 0x00, 0x00, 0x00, 0x00, 0x00, 0x00, 0x20] ++ (creds ++ ([0x00, 0x00, 0x00, 0x00, 0x00, 0x00, 0x00, 0x00, 0x00, 0x00, 0x00, 0x00, 0x00, 0x00, 0x00, 0x00, 0x00, 0x00, 0x00, 0x00, 0x00, 0x00, 0x00, 0x00, 0x00, 0x00, 0x00, 0x00, 0x00, 0x00, 0x00, 0x60] ++ sig)))))) := by
    simp [rawTxData]
  have s132 : (rawTxData pk creds sig root).drop 132 = ([0x00, 0x00, 0x00, 0x00, 0x00, 0x00, 0x00, 0x00, 0x00, 0x00, 0x00, 0x00, 0x00, 0x00, 0x00, 0x00, 0x00, 0x00, 0x00, 0x00, 0x00, 0x00, 0x00, 0x00, 0x00, 0x00, 0x00, 0x00, 0x00, 0x00, 0x00, 0x30] ++ (pk ++ ([0x00, 0x00, 0x00, 0x00, 0x00, 0x00, 0x00, 0x00, 0x00, 0x00, 0x00, 0x00, 0x00, 0x00, 0x00, 0x00] ++ ([0x00, 0x00, 0x00, 0x00, 0x00, 0x00, 0x00, 0x00, 0x00, 0x00, 0x00, 0x00, 0x00, 0x00, 0x00, 0x00, 0x00, 0x00, 0x00, 0x00, 0x00, 0x00, 0x00, 0x00, 0x00, 0x00, 0x00, 0x00, 0x00, 0x00, 0x00, 0x20] ++ (creds ++ ([0x00, 0x00, 0x00, 0x00, 0x00, 0x00, 0x00, 0x00, 0x00, 0x00, 0x00, 0x00, 0x00, 0x00, 0x00, 0x00, 0x00, 0x00, 0x00, 0x00, 0x00, 0x00, 0x00, 0x00, 0x00, 0x00, 0x00, 0x00, 0x00, 0x00, 0x00, 0x60] ++ sig)))))) := by
    have e : (132 : Nat) = 100 + 32 := rfl
    rw [e, ← List.drop_drop, s100, List.drop_left' hr]
  have s164 : (rawTxData pk creds sig root).drop 164 = pk ++ ([0x00, 0x00, 0x00, 0x00, 0x00, 0x00, 0x00, 0x00, 0x00, 0x00, 0x00, 0x00, 0x00, 0x00, 0x00, 0x00] ++ ([0x00, 0x00, 0x00, 0x00, 0x00, 0x00, 0x00, 0x00, 0x00, 0x00, 0x00, 0x00, 0x00, 0x00, 0x00, 0x00, 0x00, 0x00, 0x00, 0x00, 0x00, 0x00, 0x00, 0x00, 0x00, 0x00, 0x00, 0x00, 0x00, 0x00, 0x00, 0x20] ++ (creds ++ ([0x00, 0x00, 0x00, 0x00, 0x00, 0x00, 0x00, 0x00, 0x00, 0x00, 0x00, 0x00, 0x00, 0x00, 0x00, 0x00, 0x00, 0x00, 0x00, 0x00, 0x00, 0x00, 0x00, 0x00, 0x00, 0x00, 0x00, 0x00, 0x00, 0x00, 0x00, 0x60] ++ sig)))) := by
    have e : (164 : Nat) = 132 + 32 := rfl
    rw [e, ← List.drop_drop, s132]
    simp
  have s212 : (rawTxData pk creds sig root).drop 212 = ([0x00, 0x00, 0x00, 0x00, 0x00, 0x00, 0x00, 0x00, 0x00, 0x00, 0x00, 0x00, 0x00, 0x00, 0x00, 0x00] ++ ([0x00, 0x00, 0x00, 0x00, 0x00, 0x00, 0x00, 0x00, 0x00, 0x00, 0x00, 0x00, 0x00, 0x00, 0x00, 0x00, 0x00, 0x00, 0x00, 0x00, 0x00, 0x00, 0x00, 0x00, 0x00, 0x00, 0x00, 0x00, 0x00, 0x00, 0x00, 0x20] ++ (creds ++ ([0x00, 0x00, 0x00, 0x00, 0x00, 0x00, 0x00, 0x00, 0x00, 0x00, 0x00, 0x00, 0x00, 0x00, 0x00, 0x00, 0x00, 0x00, 0x00, 0x00, 0x00, 0x00, 0x00, 0x00, 0x00, 0x00, 0x00, 0x00, 0x00, 0x00, 0x00, 0x60] ++ sig)))) := by
    have e : (212 : Nat) = 164 + 48 := rfl
    rw [e, ← List.drop_drop, s164, List.drop_left' hpk]
  have s260 : (rawTxData pk creds sig root).drop 260 = creds ++ ([0x00, 0x00, 0x00, 0x00, 0x00, 0x00, 0x00, 0x00, 0x00, 0x00, 0x00, 0x00, 0x00, 0x00, 0x00, 0x00, 0x00, 0x00, 0x00, 0x00, 0x00, 0x00, 0x00, 0x00, 0x00, 0x00, 0x00, 0x00, 0x00, 0x00, 0x00, 0x60] ++ sig) := by
    have e : (260 : Nat) = 212 + 48 := rfl
    rw [e, ← List.drop_drop, s212]
    simp
  have s292 : (rawTxData pk creds sig root).drop 292 = ([0x00, 0x00, 0x00, 0x00, 0x00, 0x00, 0x00, 0x00, 0x00, 0x00, 0x00, 0x00, 0x00, 0x00, 0x00, 0x00, 0x00, 0x00, 0x00, 0x00, 0x00, 0x00, 0x00, 0x00, 0x00, 0x00, 0x00, 0x00, 0x00, 0x00, 0x00, 0x60] ++ sig) := by
    have e : (292 : Nat) = 260 + 32 := rfl
    rw [e, ← List.drop_drop, s260, List.drop_left' hc]
  have s324 : (rawTxData pk creds sig root).drop 324 = sig := by
    have e : (324 : Nat) = 292 + 32 := rfl
    rw [e, ← List.drop_drop, s292]
    simp
  refine ⟨?_, ?_, ?_, ?_⟩
  · rw [rawParsedPubKey, s164, List.take_left' hpk]
  · rw [rawParsedCredentials, s260, List.take_left' hc]
  · rw [rawParsedSignature, s324, ← hs, List.take_length]
  · rw [rawParsedRoot, s100, List.take_left' hr]

/-- Witness for C4 at concrete 48/32/96/32-byte inputs. -/
theorem raw_roundtrip_witness :
    rawParsedPubKey (rawTxData (List.replicate 48 5) (List.replicate 32 6) (List.replicate 96 7) (List.replicate 32 8)) = List.replicate 48 5 ∧
    rawParsedCredentials (rawTxData (List.replicate 48 5) (List.replicate 32 6) (List.replicate 96 7) (List.replicate 32 8)) = List.replicate 32 6 ∧
    rawParsedSignature (rawTxData (List.replicate 48 5) (List.replicate 32 6) (List.replicate 96 7) (List.replicate 32 8)) = List.replicate 96 7 ∧
    rawParsedRoot (rawTxData (List.replicate 48 5) (List.replicate 32 6) (List.replicate 96 7) (List.replicate 32 8)) = List.replicate 32 8 :=
  raw_roundtrip _ _ _ _ (by decide) (by decide) (by decide) (by decide)


/-- C2: for every 48-byte withdrawal public key, the derived credentials
equal the SHA-256 digest with byte 0 unconditionally overwritten by zero:
the first byte is zero regardless of the digest's natural first byte, the
length stays 32, and every other byte is the digest's byte. -/
theorem credentials_first_byte_zero (sha256 : Bytes → Bytes) (k : Bytes)
    (hk : k.length = 48) (hlen : (sha256 k).length = 32) :
    deriveWithdrawalCredentials sha256 k = (sha256 k).set 0 0 ∧
    (deriveWithdrawalCredentials sha256 k).getD 0 0 = 0 ∧
    (deriveWithdrawalCredentials sha256 k).length = 32 ∧
    (∀ i, 1 ≤ i → (deriveWithdrawalCredentials sha256 k).getD i 0 = (sha256 k).getD i 0) := by
  refine ⟨rfl, ?_, ?_, ?_⟩
  · unfold deriveWithdrawalCredentials setFirstByteZero
    cases hsk : sha256 k with
    | nil => simp
    | cons a t => simp
  · simp [deriveWithdrawalCredentials, setFirstByteZero, hlen]
  · intro i hi
    unfold deriveWithdrawalCredentials setFirstByteZero
    cases hsk : sha256 k with
    | nil => simp
    | cons a t =>
      cases i with
      | zero => omega
      | succ j => simp

/-- Witness for C2: a hash whose natural first byte is 0xab still yields
credentials starting with zero. -/
theorem credentials_first_byte_zero_witness :
    (List.replicate 48 7 : Bytes).length = 48 ∧
    ((fun _ => (171 :: List.replicate 31 5 : Bytes)) (List.replicate 48 7)).length = 32 ∧
    (deriveWithdrawalCredentials (fun _ => (171 :: List.replicate 31 5 : Bytes)) (List.replicate 48 7)).getD 0 0 = 0 :=
  ⟨by decide, by decide,
    (credentials_first_byte_zero (fun _ => (171 :: List.replicate 31 5 : Bytes)) (List.replicate 48 7)
      (by decide) (by decide)).2.1⟩

/-- C9: the default-mode per-validator output is exactly the JSON object
with keys name, account, pubkey, withdrawal_credentials, signature, value,
deposit_data_root and version in that order, where version is the fixed
literal 2, value is the decimal amount, and every byte-string field is
hex-encoded with a 0x mark. -/
theorem default_output_is_json_object (wallet acctName : String) (pk creds sig : Bytes) (val : Nat) (root : Bytes) :
    defaultOutput wallet acctName pk creds sig val root =
      renderObj [("name", .str ("Deposit for " ++ wallet ++ "/" ++ acctName)),
                 ("account", .str (wallet ++ "/" ++ acctName)),
                 ("pubkey", .str (hex0x pk)),
                 ("withdrawal_credentials", .str (hex0x creds)),
                 ("signature", .str (hex0x sig)),
                 ("value", .num val),
                 ("deposit_data_root", .str (hex0x root)),
                 ("version", .num 2)] := by
  apply String.ext
  simp [defaultOutput, renderObj, String.intercalate, String.intercalate.go, renderJVal]
  rfl
/-- Characterization of a successful loop iteration: it succeeds exactly
when the account provides a public key, the fork version resolves, and the
signer returns a signature; the output is the selected format's string. -/
theorem processAccount_ok_iff (collab : Collab) (args : Args) (wallet : String)
    (creds : Bytes) (val : Nat) (acct : Account) (o : String) :
    (processAccount collab args wallet creds val acct).out = .ok o ↔
    ∃ pk fv sig, acct.pubKey = some pk ∧ resolveForkVersion collab args = .ok fv ∧
      acct.sign (collab.domain fv) = some sig ∧
      o = (if args.raw then hex0x (rawTxData pk creds sig (collab.htrSigned pk creds val sig))
           else if args.launchpad then
             launchpadOutput pk creds val sig (collab.htrUnsigned pk creds val) (collab.htrSigned pk creds val sig) fv
           else defaultOutput wallet acct.name pk creds sig val (collab.htrSigned pk creds val sig)) := by
  unfold processAccount
  cases hpk : acct.pubKey with
  | none => simp
  | some pk =>
    cases hfv : resolveForkVersion collab args with
    | error e => simp [hfv]
    | ok fv =>
      cases hs : acct.sign (collab.domain fv) with
      | none => simp [hs]
      | some sig =>
        simp only [hs]
        constructor
        · intro h
          cases h
          exact ⟨pk, fv, sig, rfl, rfl, hs, rfl⟩
        · rintro ⟨pk2, fv2, sig2, hpk2, hfv2, hs2, ho⟩
          cases hpk2
          cases hfv2
          rw [hs] at hs2
          cases hs2
          simp [ho]

/-- A successful loop iteration attempted exactly one configuration fetch
when no explicit fork version was given, made exactly one signature
request, and signed under the domain of the resolved fork version. -/
theorem processAccount_ok_fields (collab : Collab) (args : Args) (wallet : String)
    (creds : Bytes) (val : Nat) (acct : Account) (o : String)
    (h : (processAccount collab args wallet creds val acct).out = .ok o) :
    (processAccount collab args wallet creds val acct).fetches = (if args.forkVersion = "" then 1 else 0) ∧
    (processAccount collab args wallet creds val acct).signs = 1 ∧
    ∃ fv, resolveForkVersion collab args = .ok fv ∧
      (processAccount collab args wallet creds val acct).domains = [collab.domain fv] := by
  obtain ⟨pk, fv, sig, hpk, hfv, hs, ho⟩ := (processAccount_ok_iff collab args wallet creds val acct o).1 h
  refine ⟨?_, ?_, ⟨fv, hfv, ?_⟩⟩ <;> simp [processAccount, hpk, hfv, hs]

/-- On a successful batch the configuration collaborator is contacted once
per validator when no explicit fork version was given, one signature is
requested per validator, and every recorded domain is the domain of the
resolved fork version. -/
theorem processAccounts_ok_counts (collab : Collab) (args : Args) (wallet : String)
    (creds : Bytes) (val : Nat) :
    ∀ (accounts : List Account) (outs : List String),
      (processAccounts collab args wallet creds val accounts).result = .ok outs →
      (processAccounts collab args wallet creds val accounts).fetches =
        (if args.forkVersion = "" then accounts.length else 0) ∧
      (processAccounts collab args wallet creds val accounts).signs = accounts.length ∧
      (∀ fv, resolveForkVersion collab args = .ok fv →
        ∀ d ∈ (processAccounts collab args wallet creds val accounts).domains, d = collab.domain fv) := by
  intro accounts
  induction accounts with
  | nil =>
    intro outs h
    simp [processAccounts]
  | cons a rest ih =>
    intro outs h
    rw [processAccounts] at h
    cases hpa : (processAccount collab args wallet creds val a).out with
    | error e => rw [hpa] at h; simp at h
    | ok o =>
      rw [hpa] at h
      simp only at h
      cases hrest : (processAccounts collab args wallet creds val rest).result with
      | error e => rw [hrest] at h; simp at h
      | ok os =>
        rw [hrest] at h
        simp only at h
        obtain ⟨hf, hsg, hd⟩ := ih os hrest
        obtain ⟨haf, has, fv0, hfv0, had⟩ := processAccount_ok_fields collab args wallet creds val a o hpa
        rw [processAccounts]
        simp only [hpa, hrest]
        refine ⟨?_, ?_, ?_⟩
        · simp only [haf, hf]
          by_cases hempty : args.forkVersion = "" <;> simp [hempty, Nat.add_comm]
        · simp [has, hsg, Nat.add_comm]
        · intro fv hfv d hd2
          simp only [had] at hd2
          rw [hfv0] at hfv
          cases hfv
          simp at hd2
          rcases hd2 with h1 | h2
          · rw [h1]
          · exact hd fv0 hfv0 d h2

/-- A successful run passed every validation stage: the credentials and
deposit value stages succeeded, at least one account was matched, and the
whole run equals the per-validator loop on the derived values. -/
theorem runCore_ok_elim (collab : Collab) (args : Args) (wallet : String)
    (accounts : List Account) (outs : List String)
    (hok : (runCore collab args (some (wallet, accounts))).result = .ok outs) :
    ∃ creds val, withdrawalCreds collab args = .ok creds ∧
      depositValueResult collab args = .ok val ∧
      0 < accounts.length ∧
      runCore collab args (some (wallet, accounts)) = processAccounts collab args wallet creds val accounts := by
  by_cases hva : args.validatorAccount = ""
  · rw [runCore] at hok
    simp [hva] at hok
  · by_cases hlen : accounts.length > 0
    · by_cases hall : accounts.all (fun a => a.pubKey.isSome)
      · cases hc : withdrawalCreds collab args with
        | error e => rw [runCore] at hok; simp [hva, hlen, hall, hc] at hok
        | ok creds =>
          cases hv : depositValueResult collab args with
          | error e => rw [runCore] at hok; simp [hva, hlen, hall, hc, hv] at hok
          | ok val =>
            refine ⟨creds, val, rfl, rfl, hlen, ?_⟩
            rw [runCore]
            simp [hva, hlen, hall, hc, hv]
      · rw [runCore] at hok; simp [hva, hlen, hall] at hok
    · rw [runCore] at hok; simp [hva, hlen] at hok

/-- Under the early guards, the run reduces to the credential stage, the
value stage and the per-validator loop in sequence. -/
theorem runCore_reduce (collab : Collab) (args : Args) (wallet : String)
    (accounts : List Account)
    (hva : args.validatorAccount ≠ "")
    (hlen : 0 < accounts.length)
    (hall : accounts.all (fun a => a.pubKey.isSome) = true) :
    runCore collab args (some (wallet, accounts)) =
      (match withdrawalCreds collab args with
       | .error e => ⟨.error e, 0, 0, []⟩
       | .ok creds =>
         match depositValueResult collab args with
         | .error e => ⟨.error e, 0, 0, []⟩
         | .ok val => processAccounts collab args wallet creds val accounts) := by
  rw [runCore]
  simp [hva, hlen, hall]

/-- Fork-version resolution fails when no explicit version is supplied and
the chain configuration cannot be fetched. -/
theorem resolveForkVersion_err_noconn (collab : Collab) (args : Args)
    (hfv : args.forkVersion = "") (h : collab.fetchConfig = none) :
    resolveForkVersion collab args = .error (.configUnavailable "Could not connect to beacon node; supply a connection with --connection or provide a fork version with --forkversion to generate a deposit") := by
  unfold resolveForkVersion
  simp [hfv, h]

/-- Fork-version resolution fails when the fetched configuration lacks a
genesis fork version. -/
theorem resolveForkVersion_err_missing (collab : Collab) (args : Args) (cfg : List (String × Bytes))
    (hfv : args.forkVersion = "") (hc : collab.fetchConfig = some cfg)
    (hl : lookupConfig cfg "GenesisForkVersion" = none) :
    resolveForkVersion collab args = .error (.configUnavailable "Failed to obtain genesis fork version") := by
  unfold resolveForkVersion
  simp [hfv, hc, hl]

/-- A supplied fork version whose hex decoding is not exactly 4 bytes is
rejected as invalid input. -/
theorem resolveForkVersion_err_len (collab : Collab) (args : Args) (fv : Bytes)
    (hfvs : args.forkVersion ≠ "") (hdec : hexDecode args.forkVersion = some fv)
    (hlen : fv.length ≠ 4) :
    resolveForkVersion collab args = .error (.invalidInput "Fork version must be exactly four bytes") := by
  unfold resolveForkVersion
  simp [hfvs, hdec, hlen]

/-- A supplied fork version that does not hex-decode is rejected as
invalid input. -/
theorem resolveForkVersion_err_decode (collab : Collab) (args : Args)
    (hfvs : args.forkVersion ≠ "") (hdec : hexDecode args.forkVersion = none) :
    resolveForkVersion collab args = .error (.invalidInput "Failed to decode fork version") := by
  unfold resolveForkVersion
  simp [hfvs, hdec]

/-- A loop iteration fails when fork-version resolution fails. -/
theorem processAccount_err_of_resolve (collab : Collab) (args : Args) (wallet : String)
    (creds : Bytes) (val : Nat) (acct : Account) (e : RunError)
    (hfv : resolveForkVersion collab args = .error e) :
    ∃ e2, (processAccount collab args wallet creds val acct).out = .error e2 := by
  unfold processAccount
  cases hpk : acct.pubKey with
  | none => exact ⟨_, rfl⟩
  | some pk =>
    refine ⟨e, ?_⟩
    simp [hfv]

/-- A failure on the first validator aborts the whole batch with that
error. -/
theorem processAccounts_err_head (collab : Collab) (args : Args) (wallet : String)
    (creds : Bytes) (val : Nat) (a : Account) (rest : List Account) (e : RunError)
    (hpa : (processAccount collab args wallet creds val a).out = .error e) :
    (processAccounts collab args wallet creds val (a :: rest)).result = .error e := by
  rw [processAccounts]
  simp [hpa]

/-- A raw withdrawal public key that decodes to other than 48 bytes is
rejected as invalid input. -/
theorem withdrawalCreds_err_badlen (collab : Collab) (args : Args) (bs : Bytes)
    (hwa : args.withdrawalAccount = "") (hwp : args.withdrawalPubKey ≠ "")
    (hdec : hexDecode args.withdrawalPubKey = some bs) (hlen : bs.length ≠ 48) :
    withdrawalCreds collab args = .error (.invalidInput "Public key should be 48 bytes") := by
  unfold withdrawalCreds
  simp [hwa, hwp, hdec, hlen]

/-- A raw withdrawal public key that decodes to 48 bytes but is not a
valid BLS public key is rejected as invalid input. -/
theorem withdrawalCreds_err_bls (collab : Collab) (args : Args) (bs : Bytes)
    (hwa : args.withdrawalAccount = "") (hwp : args.withdrawalPubKey ≠ "")
    (hdec : hexDecode args.withdrawalPubKey = some bs) (hlen : bs.length = 48)
    (hbls : collab.blsPubKeyCanonical bs = none) :
    withdrawalCreds collab args = .error (.invalidInput "Value supplied with --withdrawalpubkey is not a valid public key") := by
  unfold withdrawalCreds
  simp [hwa, hwp, hdec, hlen, hbls]

/-- A valid raw withdrawal public key yields credentials derived from the
canonical re-marshalled form of the parsed key. -/
theorem withdrawalCreds_ok_bls (collab : Collab) (args : Args) (bs canon : Bytes)
    (hwa : args.withdrawalAccount = "") (hwp : args.withdrawalPubKey ≠ "")
    (hdec : hexDecode args.withdrawalPubKey = some bs) (hlen : bs.length = 48)
    (hbls : collab.blsPubKeyCanonical bs = some canon) :
    withdrawalCreds collab args = .ok (deriveWithdrawalCredentials collab.sha256 canon) := by
  unfold withdrawalCreds
  simp [hwa, hwp, hdec, hlen, hbls]

/-- A parsed deposit value below 1000000000 Gwei is rejected as invalid
input. -/
theorem depositValue_err_low (collab : Collab) (args : Args) (v : Nat)
    (hne : args.depositValue ≠ "")
    (hp : collab.parseValue args.depositValue = some v) (hlow : v < 1000000000) :
    depositValueResult collab args = .error (.invalidInput "deposit value must be at least 1 Ether") := by
  unfold depositValueResult
  simp [hne, hp]
  omega

/-- A parsed deposit value of at least 1000000000 Gwei passes the value
stage unchanged. -/
theorem depositValue_ok_ge (collab : Collab) (args : Args) (v : Nat)
    (hne : args.depositValue ≠ "")
    (hp : collab.parseValue args.depositValue = some v) (hge : 1000000000 ≤ v) :
    depositValueResult collab args = .ok v := by
  unfold depositValueResult
  simp [hne, hp, hge]

/-- A credential-stage failure aborts the run before the loop, with no
fetch and no signature request. -/
theorem runCore_err_of_creds (collab : Collab) (args : Args) (wallet : String)
    (accounts : List Account) (e : RunError)
    (hva : args.validatorAccount ≠ "") (hlen : 0 < accounts.length)
    (hall : accounts.all (fun a => a.pubKey.isSome) = true)
    (he : withdrawalCreds collab args = .error e) :
    runCore collab args (some (wallet, accounts)) = ⟨.error e, 0, 0, []⟩ := by
  rw [runCore_reduce collab args wallet accounts hva hlen hall, he]

/-- A value-stage failure aborts the run before the loop, with no fetch
and no signature request. -/
theorem runCore_err_of_val (collab : Collab) (args : Args) (wallet : String)
    (accounts : List Account) (creds : Bytes) (e : RunError)
    (hva : args.validatorAccount ≠ "") (hlen : 0 < accounts.length)
    (hall : accounts.all (fun a => a.pubKey.isSome) = true)
    (hc : withdrawalCreds collab args = .ok creds)
    (he : depositValueResult collab args = .error e) :
    runCore collab args (some (wallet, accounts)) = ⟨.error e, 0, 0, []⟩ := by
  rw [runCore_reduce collab args wallet accounts hva hlen hall, hc, he]

/-- When every pre-loop stage passes, the run is the per-validator loop. -/
theorem runCore_ok_stage (collab : Collab) (args : Args) (wallet : String)
    (accounts : List Account) (creds : Bytes) (val : Nat)
    (hva : args.validatorAccount ≠ "") (hlen : 0 < accounts.length)
    (hall : accounts.all (fun a => a.pubKey.isSome) = true)
    (hc : withdrawalCreds collab args = .ok creds)
    (hv : depositValueResult collab args = .ok val) :
    runCore collab args (some (wallet, accounts)) = processAccounts collab args wallet creds val accounts := by
  rw [runCore_reduce collab args wallet accounts hva hlen hall, hc, hv]

/-- On a successful batch there is one output per account and the output
at each index is the processing result of the account at that index. -/
theorem processAccounts_ok_nth (collab : Collab) (args : Args) (wallet : String)
    (creds : Bytes) (val : Nat) :
    ∀ (accounts : List Account) (outs : List String),
      (processAccounts collab args wallet creds val accounts).result = .ok outs →
      outs.length = accounts.length ∧
      ∀ i (hi : i < accounts.length) (hi2 : i < outs.length),
        (processAccount collab args wallet creds val (accounts.get ⟨i, hi⟩)).out = .ok (outs.get ⟨i, hi2⟩) := by
  intro accounts
  induction accounts with
  | nil =>
    intro outs h
    simp [processAccounts] at h
    subst h
    exact ⟨rfl, fun i hi hi2 => absurd hi (by simp)⟩
  | cons a rest ih =>
    intro outs h
    rw [processAccounts] at h
    cases hpa : (processAccount collab args wallet creds val a).out with
    | error e => rw [hpa] at h; simp at h
    | ok o =>
      rw [hpa] at h
      simp only at h
      cases hrest : (processAccounts collab args wallet creds val rest).result with
      | error e => rw [hrest] at h; simp at h
      | ok os =>
        rw [hrest] at h
        simp only at h
        have hout : outs = o :: os := by
          cases h; rfl
        subst hout
        obtain ⟨hlen, hidx⟩ := ih os hrest
        refine ⟨by simp [hlen], ?_⟩
        intro i hi hi2
        cases i with
        | zero => simpa using hpa
        | succ j => simpa using hidx j (by simpa using hi) (by simpa using hi2)

/-- C3: on a successful non-quiet run, the batch produces one output per
matched account, the output at each index is the result for the account at
the same index (the wallet resolver's enumeration order), and the printed
string is the single result unwrapped when there is exactly one, and the
comma-joined results inside one pair of square brackets otherwise. -/
theorem batch_output_shape (collab : Collab) (args : Args) (wallet : String)
    (accounts : List Account) (creds : Bytes) (val : Nat) (outs : List String)
    (hq : args.quiet = false)
    (hcreds : withdrawalCreds collab args = .ok creds)
    (hval : depositValueResult collab args = .ok val)
    (hok : (runCore collab args (some (wallet, accounts))).result = .ok outs) :
    outs.length = accounts.length ∧
    (∀ i (hi : i < accounts.length) (hi2 : i < outs.length),
      (processAccount collab args wallet creds val (accounts.get ⟨i, hi⟩)).out = .ok (outs.get ⟨i, hi2⟩)) ∧
    (renderRun args (runCore collab args (some (wallet, accounts)))).stdout =
      (if outs.length = 1 then outs.headD "" ++ "\n"
       else "[" ++ String.intercalate "," outs ++ "]" ++ "\n") := by
  obtain ⟨creds2, val2, hc2, hv2, hlen, heq⟩ := runCore_ok_elim collab args wallet accounts outs hok
  rw [hcreds] at hc2
  cases hc2
  rw [hval] at hv2
  cases hv2
  obtain ⟨hl, hidx⟩ := processAccounts_ok_nth collab args wallet creds val accounts outs (by rw [← heq]; exact hok)
  refine ⟨hl, hidx, ?_⟩
  unfold renderRun
  rw [hok]
  by_cases houts : outs.length = 1 <;> simp [hq, houts]

/-- C5: when no explicit fork version is supplied and the configuration
fetch fails or lacks a genesis fork version, the run ends in an error,
exits with status 1, writes nothing to standard output, and (outside quiet
mode) writes a message to the error stream; moreover every erroneous run
writes nothing to standard output and exits 1. -/
theorem config_unavailable_fatal (collab : Collab) (args : Args)
    (resolved : Option (String × List Account))
    (hfv : args.forkVersion = "")
    (hcfg : collab.fetchConfig = none ∨
      ∃ cfg, collab.fetchConfig = some cfg ∧ lookupConfig cfg "GenesisForkVersion" = none) :
    (∃ e, (runCore collab args resolved).result = .error e) ∧
    (renderRun args (runCore collab args resolved)).exitCode = 1 ∧
    (renderRun args (runCore collab args resolved)).stdout = "" ∧
    (args.quiet = false → (renderRun args (runCore collab args resolved)).stderr ≠ "") ∧
    (∀ (c2 : Collab) (a2 : Args) (r2 : Option (String × List Account)) (e : RunError),
      (runCore c2 a2 r2).result = .error e →
      (renderRun a2 (runCore c2 a2 r2)).stdout = "" ∧
      (renderRun a2 (runCore c2 a2 r2)).exitCode = 1) := by
  have hres : ∃ e, (runCore collab args resolved).result = .error e := by
    cases hr : (runCore collab args resolved).result with
    | error e => exact ⟨e, rfl⟩
    | ok outs =>
      exfalso
      cases resolved with
      | none =>
        rw [runCore] at hr
        by_cases hva : args.validatorAccount = "" <;> simp [hva] at hr
      | some p =>
        obtain ⟨wallet, accounts⟩ := p
        obtain ⟨creds, val, hc, hv, hlen, heq⟩ := runCore_ok_elim collab args wallet accounts outs hr
        cases accounts with
        | nil => simp at hlen
        | cons a rest =>
          have hfverr : ∃ e, resolveForkVersion collab args = .error e := by
            rcases hcfg with h | ⟨cfg, hcf, hl⟩
            · exact ⟨_, resolveForkVersion_err_noconn collab args hfv h⟩
            · exact ⟨_, resolveForkVersion_err_missing collab args cfg hfv hcf hl⟩
          obtain ⟨e0, he0⟩ := hfverr
          obtain ⟨e2, he2⟩ := processAccount_err_of_resolve collab args wallet creds val a e0 he0
          have herr := processAccounts_err_head collab args wallet creds val a rest e2 he2
          rw [heq, herr] at hr
          simp at hr
  obtain ⟨e, he⟩ := hres
  refine ⟨⟨e, he⟩, ?_, ?_, ?_, ?_⟩
  · unfold renderRun
    rw [he]
  · unfold renderRun
    rw [he]
  · intro hqf
    unfold renderRun
    rw [he]
    simp [hqf]
    intro hcontra
    have hd := congrArg String.data hcontra
    simp at hd
  · intro c2 a2 r2 e2 h2
    unfold renderRun
    rw [h2]
    exact ⟨rfl, rfl⟩

/-- A loop iteration over an account with a public key fails with exactly
the fork-version resolution error when resolution fails. -/
theorem processAccount_err_resolve_pk (collab : Collab) (args : Args) (wallet : String)
    (creds : Bytes) (val : Nat) (acct : Account) (pk : Bytes) (e : RunError)
    (hpk : acct.pubKey = some pk)
    (hfv : resolveForkVersion collab args = .error e) :
    (processAccount collab args wallet creds val acct).out = .error e := by
  unfold processAccount
  simp [hpk, hfv]

/-- C6 as amended: the withdrawal credentials and deposit value are
computed once before the loop and each validator is processed with those
same values, and every validator is signed under the identical domain of
the resolved genesis fork version; however the chain-configuration
collaborator is contacted once per validator, so a successful run with no
explicit fork version performs exactly one fetch and one signature request
per matched account. -/
theorem batch_fetch_per_validator (collab : Collab) (args : Args) (wallet : String)
    (accounts : List Account) (creds : Bytes) (val : Nat) (outs : List String) (fv : Bytes)
    (hnofv : args.forkVersion = "")
    (hcreds : withdrawalCreds collab args = .ok creds)
    (hval : depositValueResult collab args = .ok val)
    (hfv : resolveForkVersion collab args = .ok fv)
    (hok : (runCore collab args (some (wallet, accounts))).result = .ok outs) :
    (runCore collab args (some (wallet, accounts))).fetches = accounts.length ∧
    (runCore collab args (some (wallet, accounts))).signs = accounts.length ∧
    (∀ d ∈ (runCore collab args (some (wallet, accounts))).domains, d = collab.domain fv) ∧
    (∀ i (hi : i < accounts.length) (hi2 : i < outs.length),
      (processAccount collab args wallet creds val (accounts.get ⟨i, hi⟩)).out = .ok (outs.get ⟨i, hi2⟩)) := by
  obtain ⟨creds2, val2, hc2, hv2, hlen, heq⟩ := runCore_ok_elim collab args wallet accounts outs hok
  rw [hcreds] at hc2
  cases hc2
  rw [hval] at hv2
  cases hv2
  have hok2 : (processAccounts collab args wallet creds val accounts).result = .ok outs := by
    rw [← heq]; exact hok
  obtain ⟨hf, hsg, hd⟩ := processAccounts_ok_counts collab args wallet creds val accounts outs hok2
  obtain ⟨hl, hidx⟩ := processAccounts_ok_nth collab args wallet creds val accounts outs hok2
  rw [heq]
  exact ⟨by rw [hf]; simp [hnofv], hsg, hd fv hfv, hidx⟩

/-- C7: once the run reaches the value stage, a parsed amount strictly
below 1000000000 Gwei fails with the invalid-input error before any
signature request, while an amount exactly at the threshold passes the
value check and the run succeeds whenever the loop does. -/
theorem deposit_value_minimum (collab : Collab) (args : Args) (wallet : String)
    (accounts : List Account) (creds : Bytes) (v : Nat)
    (hva : args.validatorAccount ≠ "") (hlen : 0 < accounts.length)
    (hall : accounts.all (fun a => a.pubKey.isSome) = true)
    (hcreds : withdrawalCreds collab args = .ok creds)
    (hne : args.depositValue ≠ "")
    (hp : collab.parseValue args.depositValue = some v) :
    (v < 1000000000 →
      (runCore collab args (some (wallet, accounts))).result =
        .error (.invalidInput "deposit value must be at least 1 Ether") ∧
      (runCore collab args (some (wallet, accounts))).signs = 0) ∧
    (v = 1000000000 →
      depositValueResult collab args = .ok 1000000000 ∧
      ∀ outs, (processAccounts collab args wallet creds 1000000000 accounts).result = .ok outs →
        (runCore collab args (some (wallet, accounts))).result = .ok outs) := by
  constructor
  · intro hlow
    have he := depositValue_err_low collab args v hne hp hlow
    rw [runCore_err_of_val collab args wallet accounts creds _ hva hlen hall hcreds he]
    exact ⟨rfl, rfl⟩
  · intro hv
    subst hv
    have hdok := depositValue_ok_ge collab args 1000000000 hne hp (le_refl _)
    refine ⟨hdok, ?_⟩
    intro outs h2
    rw [runCore_ok_stage collab args wallet accounts creds 1000000000 hva hlen hall hcreds hdok]
    exact h2

/-- C8: a raw withdrawal public key decoding to other than 48 bytes fails
with an invalid-input error, and a supplied fork version that fails to
decode or decodes to other than 4 bytes fails with an invalid-input error,
in every case producing no deposit output. -/
theorem malformed_lengths_rejected (collab : Collab) (args : Args) (wallet : String)
    (a : Account) (rest : List Account)
    (hva : args.validatorAccount ≠ "")
    (hall : (a :: rest).all (fun x => x.pubKey.isSome) = true) :
    (∀ bs, args.withdrawalAccount = "" → args.withdrawalPubKey ≠ "" →
      hexDecode args.withdrawalPubKey = some bs → bs.length ≠ 48 →
      (runCore collab args (some (wallet, a :: rest))).result =
        .error (.invalidInput "Public key should be 48 bytes")) ∧
    (∀ creds val fv, withdrawalCreds collab args = .ok creds →
      depositValueResult collab args = .ok val →
      args.forkVersion ≠ "" → hexDecode args.forkVersion = some fv → fv.length ≠ 4 →
      (runCore collab args (some (wallet, a :: rest))).result =
        .error (.invalidInput "Fork version must be exactly four bytes")) ∧
    (∀ creds val, withdrawalCreds collab args = .ok creds →
      depositValueResult collab args = .ok val →
      args.forkVersion ≠ "" → hexDecode args.forkVersion = none →
      (runCore collab args (some (wallet, a :: rest))).result =
        .error (.invalidInput "Failed to decode fork version")) := by
  have hlen : 0 < (a :: rest).length := by simp
  have hapk : ∃ pk, a.pubKey = some pk := by
    have h1 := hall
    simp [List.all_cons] at h1
    exact Option.isSome_iff_exists.mp h1.1
  obtain ⟨pk, hpk⟩ := hapk
  refine ⟨?_, ?_, ?_⟩
  · intro bs hwa hwp hdec hl48
    have he := withdrawalCreds_err_badlen collab args bs hwa hwp hdec hl48
    rw [runCore_err_of_creds collab args wallet (a :: rest) _ hva hlen hall he]
  · intro creds val fv hc hv hfvs hdec hlfv
    have hre := resolveForkVersion_err_len collab args fv hfvs hdec hlfv
    have hpe := processAccount_err_resolve_pk collab args wallet creds val a pk _ hpk hre
    have herr := processAccounts_err_head collab args wallet creds val a rest _ hpe
    rw [runCore_ok_stage collab args wallet (a :: rest) creds val hva hlen hall hc hv]
    exact herr
  · intro creds val hc hv hfvs hdec
    have hre := resolveForkVersion_err_decode collab args hfvs hdec
    have hpe := processAccount_err_resolve_pk collab args wallet creds val a pk _ hpk hre
    have herr := processAccounts_err_head collab args wallet creds val a rest _ hpe
    rw [runCore_ok_stage collab args wallet (a :: rest) creds val hva hlen hall hc hv]
    exact herr

/-- C10: a raw withdrawal public key that decodes to exactly 48 bytes but
is not a valid BLS public key is rejected with an invalid-input error
before any signature request, while a valid key has its credentials
derived from the canonical re-marshalled form of the parsed key. -/
theorem invalid_bls_pubkey_rejected (collab : Collab) (args : Args) (wallet : String)
    (accounts : List Account) (bs : Bytes)
    (hva : args.validatorAccount ≠ "") (hlen : 0 < accounts.length)
    (hall : accounts.all (fun x => x.pubKey.isSome) = true)
    (hwa : args.withdrawalAccount = "") (hwp : args.withdrawalPubKey ≠ "")
    (hdec : hexDecode args.withdrawalPubKey = some bs) (h48 : bs.length = 48)
    (hbls : collab.blsPubKeyCanonical bs = none) :
    (runCore collab args (some (wallet, accounts))).result =
      .error (.invalidInput "Value supplied with --withdrawalpubkey is not a valid public key") ∧
    (runCore collab args (some (wallet, accounts))).signs = 0 ∧
    (∀ (c2 : Collab) (a2 : Args) (bs2 canon : Bytes),
      a2.withdrawalAccount = "" → a2.withdrawalPubKey ≠ "" →
      hexDecode a2.withdrawalPubKey = some bs2 → bs2.length = 48 →
      c2.blsPubKeyCanonical bs2 = some canon →
      withdrawalCreds c2 a2 = .ok (setFirstByteZero (c2.sha256 canon))) := by
  have he := withdrawalCreds_err_bls collab args bs hwa hwp hdec h48 hbls
  rw [runCore_err_of_creds collab args wallet accounts _ hva hlen hall he]
  refine ⟨rfl, rfl, ?_⟩
  intro c2 a2 bs2 canon hwa2 hwp2 hdec2 h482 hbls2
  exact withdrawalCreds_ok_bls c2 a2 bs2 canon hwa2 hwp2 hdec2 h482 hbls2

/-- Counterexample to C6 as stated: a successful two-validator run with no
explicit fork version contacts the chain-configuration collaborator twice,
not at most once per invocation. -/
theorem config_fetch_per_validator_counterexample :
    (runCore collabW argsW (some ("wallet", [acctW "v1", acctW "v2"]))).fetches = 2 ∧
    ¬ ((runCore collabW argsW (some ("wallet", [acctW "v1", acctW "v2"]))).fetches ≤ 1) ∧
    exceptIsOk (runCore collabW argsW (some ("wallet", [acctW "v1", acctW "v2"]))).result = true := by
  have h2 : (runCore collabW argsW (some ("wallet", [acctW "v1", acctW "v2"]))).fetches = 2 := rfl
  refine ⟨h2, ?_, rfl⟩
  rw [h2]
  omega

/-- Witness for C3 on a concrete successful two-validator run. -/
theorem batch_output_shape_witness :
    (okOutputs (runCore collabW argsW (some ("wallet", [acctW "v1", acctW "v2"])))).length =
      [acctW "v1", acctW "v2"].length ∧
    (∀ i (hi : i < [acctW "v1", acctW "v2"].length)
        (hi2 : i < (okOutputs (runCore collabW argsW (some ("wallet", [acctW "v1", acctW "v2"])))).length),
      (processAccount collabW argsW "wallet" (0 :: List.replicate 31 5) 32000000000
        ([acctW "v1", acctW "v2"].get ⟨i, hi⟩)).out =
      .ok ((okOutputs (runCore collabW argsW (some ("wallet", [acctW "v1", acctW "v2"])))).get ⟨i, hi2⟩)) ∧
    (renderRun argsW (runCore collabW argsW (some ("wallet", [acctW "v1", acctW "v2"])))).stdout =
      (if (okOutputs (runCore collabW argsW (some ("wallet", [acctW "v1", acctW "v2"])))).length = 1 then
        (okOutputs (runCore collabW argsW (some ("wallet", [acctW "v1", acctW "v2"])))).headD "" ++ "\n"
       else "[" ++ String.intercalate ","
         (okOutputs (runCore collabW argsW (some ("wallet", [acctW "v1", acctW "v2"])))) ++ "]" ++ "\n") :=
  batch_output_shape collabW argsW "wallet" [acctW "v1", acctW "v2"]
    (0 :: List.replicate 31 5) 32000000000
    (okOutputs (runCore collabW argsW (some ("wallet", [acctW "v1", acctW "v2"]))))
    rfl rfl rfl rfl

/-- Witness for C5 with a concrete unreachable configuration source. -/
theorem config_unavailable_fatal_witness :
    (∃ e, (runCore { collabW with fetchConfig := none } argsW none).result = .error e) ∧
    (renderRun argsW (runCore { collabW with fetchConfig := none } argsW none)).exitCode = 1 ∧
    (renderRun argsW (runCore { collabW with fetchConfig := none } argsW none)).stdout = "" ∧
    (argsW.quiet = false →
      (renderRun argsW (runCore { collabW with fetchConfig := none } argsW none)).stderr ≠ "") ∧
    (∀ (c2 : Collab) (a2 : Args) (r2 : Option (String × List Account)) (e : RunError),
      (runCore c2 a2 r2).result = .error e →
      (renderRun a2 (runCore c2 a2 r2)).stdout = "" ∧
      (renderRun a2 (runCore c2 a2 r2)).exitCode = 1) :=
  config_unavailable_fatal { collabW with fetchConfig := none } argsW none rfl (Or.inl rfl)

/-- Witness for the amended C6 on a concrete two-validator run. -/
theorem batch_fetch_per_validator_witness :
    (runCore collabW argsW (some ("wallet", [acctW "v1", acctW "v2"]))).fetches =
      [acctW "v1", acctW "v2"].length ∧
    (runCore collabW argsW (some ("wallet", [acctW "v1", acctW "v2"]))).signs =
      [acctW "v1", acctW "v2"].length ∧
    (∀ d ∈ (runCore collabW argsW (some ("wallet", [acctW "v1", acctW "v2"]))).domains,
      d = collabW.domain [0, 0, 0, 1]) ∧
    (∀ i (hi : i < [acctW "v1", acctW "v2"].length)
        (hi2 : i < (okOutputs (runCore collabW argsW (some ("wallet", [acctW "v1", acctW "v2"])))).length),
      (processAccount collabW argsW "wallet" (0 :: List.replicate 31 5) 32000000000
        ([acctW "v1", acctW "v2"].get ⟨i, hi⟩)).out =
      .ok ((okOutputs (runCore collabW argsW (some ("wallet", [acctW "v1", acctW "v2"])))).get ⟨i, hi2⟩)) :=
  batch_fetch_per_validator collabW argsW "wallet" [acctW "v1", acctW "v2"]
    (0 :: List.replicate 31 5) 32000000000
    (okOutputs (runCore collabW argsW (some ("wallet", [acctW "v1", acctW "v2"])))) [0, 0, 0, 1]
    rfl rfl rfl rfl rfl

/-- Witness for C7 at the concrete parsed amount 1 Gwei. -/
theorem deposit_value_minimum_witness :
    ((1 : Nat) < 1000000000 →
      (runCore collabW { argsW with depositValue := "1 Gwei" } (some ("wallet", [acctW "v1"]))).result =
        .error (.invalidInput "deposit value must be at least 1 Ether") ∧
      (runCore collabW { argsW with depositValue := "1 Gwei" } (some ("wallet", [acctW "v1"]))).signs = 0) ∧
    ((1 : Nat) = 1000000000 →
      depositValueResult collabW { argsW with depositValue := "1 Gwei" } = .ok 1000000000 ∧
      ∀ outs, (processAccounts collabW { argsW with depositValue := "1 Gwei" } "wallet"
          (0 :: List.replicate 31 5) 1000000000 [acctW "v1"]).result = .ok outs →
        (runCore collabW { argsW with depositValue := "1 Gwei" } (some ("wallet", [acctW "v1"]))).result = .ok outs) :=
  deposit_value_minimum collabW { argsW with depositValue := "1 Gwei" } "wallet" [acctW "v1"]
    (0 :: List.replicate 31 5) 1 (by decide) (by decide) rfl rfl (by decide) rfl

/-- Witness for C8 with a concrete 3-byte fork version flag. -/
theorem malformed_lengths_rejected_witness :
    (∀ bs, ({ argsW with forkVersion := "0x010203" } : Args).withdrawalAccount = "" →
      ({ argsW with forkVersion := "0x010203" } : Args).withdrawalPubKey ≠ "" →
      hexDecode ({ argsW with forkVersion := "0x010203" } : Args).withdrawalPubKey = some bs → bs.length ≠ 48 →
      (runCore collabW { argsW with forkVersion := "0x010203" } (some ("wallet", [acctW "v1"]))).result =
        .error (.invalidInput "Public key should be 48 bytes")) ∧
    (∀ creds val fv, withdrawalCreds collabW { argsW with forkVersion := "0x010203" } = .ok creds →
      depositValueResult collabW { argsW with forkVersion := "0x010203" } = .ok val →
      ({ argsW with forkVersion := "0x010203" } : Args).forkVersion ≠ "" →
      hexDecode ({ argsW with forkVersion := "0x010203" } : Args).forkVersion = some fv → fv.length ≠ 4 →
      (runCore collabW { argsW with forkVersion := "0x010203" } (some ("wallet", [acctW "v1"]))).result =
        .error (.invalidInput "Fork version must be exactly four bytes")) ∧
    (∀ creds val, withdrawalCreds collabW { argsW with forkVersion := "0x010203" } = .ok creds →
      depositValueResult collabW { argsW with forkVersion := "0x010203" } = .ok val →
      ({ argsW with forkVersion := "0x010203" } : Args).forkVersion ≠ "" →
      hexDecode ({ argsW with forkVersion := "0x010203" } : Args).forkVersion = none →
      (runCore collabW { argsW with forkVersion := "0x010203" } (some ("wallet", [acctW "v1"]))).result =
        .error (.invalidInput "Failed to decode fork version")) :=
  malformed_lengths_rejected collabW { argsW with forkVersion := "0x010203" } "wallet" (acctW "v1") []
    (by decide) rfl

/-- Witness for C10 with a BLS parser rejecting every input. -/
theorem invalid_bls_pubkey_rejected_witness :
    (runCore { collabW with blsPubKeyCanonical := fun _ => none } argsW (some ("wallet", [acctW "v1"]))).result =
      .error (.invalidInput "Value supplied with --withdrawalpubkey is not a valid public key") ∧
    (runCore { collabW with blsPubKeyCanonical := fun _ => none } argsW (some ("wallet", [acctW "v1"]))).signs = 0 ∧
    (∀ (c2 : Collab) (a2 : Args) (bs2 canon : Bytes),
      a2.withdrawalAccount = "" → a2.withdrawalPubKey ≠ "" →
      hexDecode a2.withdrawalPubKey = some bs2 → bs2.length = 48 →
      c2.blsPubKeyCanonical bs2 = some canon →
      withdrawalCreds c2 a2 = .ok (setFirstByteZero (c2.sha256 canon))) :=
  invalid_bls_pubkey_rejected { collabW with blsPubKeyCanonical := fun _ => none } argsW "wallet"
    [acctW "v1"] (List.replicate 48 7) (by decide) (by decide) rfl rfl (by decide) rfl (by decide) rfl
